import Mathlib

/-!
Shallow embedding of the Gamify front-end core: the Gemini API client
(`src/services/geminiService.ts`) and the application state machine of the
root component. JavaScript string primitives used by the code
(`trim`, `startsWith`, `includes`, single-occurrence `replace`, truthiness
of strings and optional values) are modelled structurally over `List Char`
so that every definition evaluates on concrete inputs. The external pieces
(the generative-model transport and the `JSON.parse` builtin) are inputs:
an operation receives the transport outcome and a parse oracle, and the
embedding records whether the transport was invoked and whether JSON
parsing was attempted.
-/

/-- Drops leading whitespace characters from a character list. -/
def dropWhileWS (l : List Char) : List Char :=
  match l with
  | [] => []
  | c :: rest => if c.isWhitespace then dropWhileWS rest else c :: rest

/-- Model of JavaScript `String.prototype.trim`: strips leading and trailing
whitespace. -/
def jsTrim (s : String) : String :=
  String.mk (((dropWhileWS s.data).reverse |> dropWhileWS).reverse)

/-- Boolean prefix test on character lists. -/
def isPrefixList : List Char → List Char → Bool
  | [], _ => true
  | _ :: _, [] => false
  | p :: ps, c :: cs => p == c && isPrefixList ps cs

/-- Model of JavaScript `String.prototype.startsWith` with a string pattern. -/
def jsStartsWith (s pat : String) : Bool :=
  isPrefixList pat.data s.data

/-- Boolean substring-containment test on character lists. -/
def containsList (l pat : List Char) : Bool :=
  isPrefixList pat l ||
    match l with
    | [] => false
    | _ :: rest => containsList rest pat

/-- Model of JavaScript `String.prototype.includes` with a string pattern. -/
def jsIncludes (s pat : String) : Bool :=
  containsList s.data pat.data

/-- Removes `pat` from the front of a list, or `none` when it is not a
prefix. -/
def dropPrefixList : List Char → List Char → Option (List Char)
  | [], l => some l
  | _ :: _, [] => none
  | p :: ps, c :: cs => if p == c then dropPrefixList ps cs else none

/-- Replaces the first occurrence of `pat` in a character list by `repl`
(the unmatched list is returned unchanged). -/
def replaceFirstList (pat repl : List Char) : List Char → List Char
  | [] =>
    match dropPrefixList pat [] with
    | some rest => repl ++ rest
    | none => []
  | c :: cs =>
    match dropPrefixList pat (c :: cs) with
    | some rest => repl ++ rest
    | none => c :: replaceFirstList pat repl cs

/-- Model of JavaScript `String.prototype.replace` with a string pattern:
only the first occurrence is replaced. -/
def jsReplaceFirst (s pat repl : String) : String :=
  String.mk (replaceFirstList pat.data repl.data s.data)

/-- Truthiness of an optional string in JavaScript: `undefined` and the
empty string are falsy. -/
def optStrTruthy : Option String → Bool
  | none => false
  | some s => !s.data.isEmpty

/-- Error taxonomy of the API client (enum `ApiErrorType` in `types.ts`). -/
inductive ApiErrorType where
  | INVALID_KEY
  | RATE_LIMIT
  | NETWORK
  | BAD_RESPONSE
  | RESPONSE_BLOCKED
  | UNKNOWN
deriving DecidableEq, Repr

/-- Structured error of the API client (class `ApiServiceError` in
`types.ts`): an error kind plus a message. -/
structure ApiServiceError where
  type : ApiErrorType
  message : String
deriving DecidableEq, Repr

/-- Values a JavaScript `JSON.parse` call can produce. `num` is modelled
over `Int`; no claim depends on fractional numbers. -/
inductive Json where
  | null
  | bool (b : Bool)
  | num (n : Int)
  | str (s : String)
  | arr (elems : List Json)
  | obj (fields : List (String × Json))

/-- Variant tag of `PrototypeResult` in `types.ts`. -/
inductive PrototypeVariant where
  | html
  | text
deriving DecidableEq, Repr

/-- Tagged union `PrototypeResult` in `types.ts`. -/
structure PrototypeResult where
  type : PrototypeVariant
  content : String
deriving DecidableEq, Repr

/-- UI pipeline states (enum `AppState` in `types.ts`). -/
inductive AppState where
  | HERO
  | ANALYSIS_INPUT
  | ANALYSIS_LOADING
  | IDEA_LOADING
  | IDEA_COMPLETE
  | PROTOTYPE_LOADING
  | PROTOTYPE_COMPLETE
deriving DecidableEq, Repr

/-- Observable part of a model response: the finish reason of the first
candidate (absent when there is no candidate or no reason) and the
response text accessor (absent when the SDK returns none). -/
structure GenResponse where
  finishReason : Option String
  text : Option String

/-- Classification of a JavaScript thrown value as far as `handleApiError`
can observe it: an `ApiServiceError` instance, a `TypeError` instance, any
other `Error` instance, or a non-`Error` value with its string rendering. -/
inductive JsThrown where
  | apiServiceError (e : ApiServiceError)
  | typeError (message : String)
  | otherError (message : String)
  | nonError (stringRep : String)

/-- The message text `handleApiError` inspects: `error.message` for
`Error` instances, `String(error)` otherwise. -/
def jsMessage : JsThrown → String
  | JsThrown.apiServiceError e => e.message
  | JsThrown.typeError m => m
  | JsThrown.otherError m => m
  | JsThrown.nonError s => s

/-- The `error instanceof TypeError` test (`ApiServiceError` is not a
`TypeError`). -/
def isTypeErrorValue : JsThrown → Bool
  | JsThrown.typeError _ => true
  | _ => false

/-- Embedding of `handleApiError` (`geminiService.ts`): pass classified
errors through, otherwise sniff the message text, in source order. -/
def handleApiError (error : JsThrown) : ApiServiceError :=
  match error with
  | JsThrown.apiServiceError e => e
  | _ =>
    let errorMessage := jsMessage error
    if jsIncludes errorMessage "API key not valid" || jsIncludes errorMessage "Requested entity was not found" then
      { type := ApiErrorType.INVALID_KEY, message := "API Key is invalid or not found." }
    else if jsIncludes errorMessage "Rate limit exceeded" then
      { type := ApiErrorType.RATE_LIMIT, message := "You have exceeded the API rate limit." }
    else if isTypeErrorValue error && (jsIncludes errorMessage "fetch" || jsIncludes errorMessage "network") then
      { type := ApiErrorType.NETWORK, message := "A network error occurred. Please check your connection." }
    else
      { type := ApiErrorType.UNKNOWN, message := "An unknown API error occurred." }

/-- Result of one client operation together with the observable effects the
claims talk about: whether the transport (model call) was invoked, and
whether `JSON.parse` was attempted. -/
structure OpTrace (α : Type) where
  result : Except ApiServiceError α
  transportCalled : Bool
  parseAttempted : Bool

/-- Truthiness of `process.env.API_KEY`: absent or empty is falsy. -/
def keyTruthy : Option String → Bool
  | none => false
  | some s => !s.data.isEmpty

/-- The guard `response.candidates?.[0]?.finishReason && finishReason !== 'STOP'`:
the reason must be present, truthy (non-empty), and differ from `STOP`. -/
def isBlockedResponse : Option String → Bool
  | none => false
  | some reason => !reason.data.isEmpty && reason != "STOP"

/-- Embedding of `generateMarketAnalysis` (`geminiService.ts`). The prompt
construction only feeds the external model and is elided; the transport
outcome and the `JSON.parse` oracle are inputs. The result is the parsed
JSON value: the source's `as MarketAnalysis` cast performs no runtime
validation. -/
def generateMarketAnalysis (apiKey : Option String)
    (transport : Except JsThrown GenResponse)
    (parse : String → Option Json) : OpTrace Json :=
  if !keyTruthy apiKey then
    { result := Except.error { type := ApiErrorType.INVALID_KEY, message := "API Key is not configured." },
      transportCalled := false, parseAttempted := false }
  else
    match transport with
    | Except.error err =>
      { result := Except.error (handleApiError err),
        transportCalled := true, parseAttempted := false }
    | Except.ok response =>
      if isBlockedResponse response.finishReason then
        { result := Except.error ⟨ApiErrorType.RESPONSE_BLOCKED, "Response was blocked due to: " ++ response.finishReason.getD ""⟩,
          transportCalled := true, parseAttempted := false }
      else if !optStrTruthy response.text then
        { result := Except.error ⟨ApiErrorType.BAD_RESPONSE, "Received an empty response from the AI."⟩,
          transportCalled := true, parseAttempted := false }
      else
        match parse (jsTrim (response.text.getD "")) with
        | some value =>
          { result := Except.ok value, transportCalled := true, parseAttempted := true }
        | none =>
          { result := Except.error ⟨ApiErrorType.BAD_RESPONSE, "Received malformed data for market analysis."⟩,
            transportCalled := true, parseAttempted := true }

/-- Embedding of `generateGameLevels` (`geminiService.ts`): identical
validation pipeline to `generateMarketAnalysis` (only the prompt and the
malformed-data message differ); the parsed array is returned without any
length or shape check (`as GameLevel[]` is a compile-time cast only). -/
def generateGameLevels (apiKey : Option String)
    (transport : Except JsThrown GenResponse)
    (parse : String → Option Json) : OpTrace Json :=
  if !keyTruthy apiKey then
    { result := Except.error { type := ApiErrorType.INVALID_KEY, message := "API Key is not configured." },
      transportCalled := false, parseAttempted := false }
  else
    match transport with
    | Except.error err =>
      { result := Except.error (handleApiError err),
        transportCalled := true, parseAttempted := false }
    | Except.ok response =>
      if isBlockedResponse response.finishReason then
        { result := Except.error ⟨ApiErrorType.RESPONSE_BLOCKED, "Response was blocked due to: " ++ response.finishReason.getD ""⟩,
          transportCalled := true, parseAttempted := false }
      else if !optStrTruthy response.text then
        { result := Except.error ⟨ApiErrorType.BAD_RESPONSE, "Received an empty response from the AI."⟩,
          transportCalled := true, parseAttempted := false }
      else
        match parse (jsTrim (response.text.getD "")) with
        | some value =>
          { result := Except.ok value, transportCalled := true, parseAttempted := true }
        | none =>
          { result := Except.error ⟨ApiErrorType.BAD_RESPONSE, "Received malformed data for game ideas."⟩,
            transportCalled := true, parseAttempted := true }

/-- The fixed style preamble template of `generatePrototype`, verbatim from
the source template literal (a literal brace is written with a hex escape). -/
def prototypeStyleWrap (content : String) : String :=
  "\n                <style>\n                    body, html \x7b \n                        margin: 0; \n                        padding: 0; \n                        overflow: hidden; \n                        background-color: #EAF2CE;\n                    \x7d\n                    canvas \x7b \n                        display: block; \n                    \x7d\n                </style>\n                " ++ content ++ "\n            "

/-- Embedding of `generatePrototype` (`geminiService.ts`): free-form text
output, no finish-reason check and no JSON parsing; the trimmed response
text is classified purely textually by the `PROTOTYPE_UNFEASIBLE:` marker.
JavaScript `replace` with a string pattern removes only the first
occurrence, which under the `startsWith` guard is the leading marker. -/
def generatePrototype (apiKey : Option String)
    (transport : Except JsThrown GenResponse) : OpTrace PrototypeResult :=
  if !keyTruthy apiKey then
    { result := Except.error { type := ApiErrorType.INVALID_KEY, message := "API Key is not configured." },
      transportCalled := false, parseAttempted := false }
  else
    match transport with
    | Except.error err =>
      { result := Except.error (handleApiError err),
        transportCalled := true, parseAttempted := false }
    | Except.ok response =>
      let content := jsTrim (response.text.getD "")
      if content.data.isEmpty then
        { result := Except.error ⟨ApiErrorType.BAD_RESPONSE, "Received an empty prototype response from the AI."⟩,
          transportCalled := true, parseAttempted := false }
      else if jsStartsWith content "PROTOTYPE_UNFEASIBLE:" then
        { result := Except.ok ⟨PrototypeVariant.text, jsTrim (jsReplaceFirst content "PROTOTYPE_UNFEASIBLE:" "")⟩,
          transportCalled := true, parseAttempted := false }
      else
        { result := Except.ok ⟨PrototypeVariant.html, prototypeStyleWrap content⟩,
          transportCalled := true, parseAttempted := false }

/-- Mutable UI state held by the root component (one field per `useState`
hook that the claims concern; fetched analysis and levels hold the parsed
JSON values the service returned). -/
structure AppUiState where
  isApiKeySelected : Bool
  appState : AppState
  genre : String
  marketAnalysis : Option Json
  gameIdeas : Option Json
  prototypeResult : Option PrototypeResult
  error : Option String

/-- Identifier of one service request the state machine can issue. -/
inductive ApiCall where
  | analysisCall
  | ideasCall
  | prototypeCall
deriving DecidableEq, Repr

/-- User-facing message chosen by the `catch` block of `handleAnalyzeGenre`
for each error kind. -/
def analysisErrorMessage (err : ApiServiceError) : String :=
  match err.type with
  | ApiErrorType.INVALID_KEY => "Your API Key is invalid or missing permissions. Please select a valid API key to continue."
  | ApiErrorType.RATE_LIMIT => "You've exceeded the API rate limit. Please wait a moment and try again."
  | ApiErrorType.NETWORK => "A network error occurred. Please check your connection and try again."
  | ApiErrorType.BAD_RESPONSE => "The AI returned a response that couldn't be understood. Please try again."
  | ApiErrorType.RESPONSE_BLOCKED => "The AI's response was blocked due to content safety policies. Please try modifying your prompt."
  | ApiErrorType.UNKNOWN => "An unknown error occurred while contacting the AI service. Please try again."

/-- Effect of the `catch` block of `handleAnalyzeGenre`: set the message,
clear the credential-selected flag exactly for INVALID_KEY, return to
ANALYSIS_INPUT. -/
def analyzeGenreCatch (s : AppUiState) (err : ApiServiceError) : AppUiState :=
  let resetApiKey := err.type = ApiErrorType.INVALID_KEY
  { s with error := some (analysisErrorMessage err),
           isApiKeySelected := if resetApiKey then false else s.isApiKeySelected,
           appState := AppState.ANALYSIS_INPUT }

/-- Embedding of `handleAnalyzeGenre` (root component): blank-genre guard,
then the analysis call chaining automatically into the level-generation
call; the returned list records which service requests were issued. -/
def handleAnalyzeGenre (s : AppUiState)
    (analysisOutcome ideasOutcome : Except ApiServiceError Json) :
    AppUiState × List ApiCall :=
  if (jsTrim s.genre).data.isEmpty then
    ({ s with error := some "Please enter a game genre.", appState := AppState.ANALYSIS_INPUT }, [])
  else
    let s0 := { s with error := none, appState := AppState.ANALYSIS_LOADING }
    match analysisOutcome with
    | Except.error err => (analyzeGenreCatch s0 err, [ApiCall.analysisCall])
    | Except.ok analysis =>
      let s1 := { s0 with marketAnalysis := some analysis, appState := AppState.IDEA_LOADING }
      match ideasOutcome with
      | Except.error err => (analyzeGenreCatch s1 err, [ApiCall.analysisCall, ApiCall.ideasCall])
      | Except.ok ideas =>
        ({ s1 with gameIdeas := some ideas, appState := AppState.IDEA_COMPLETE },
         [ApiCall.analysisCall, ApiCall.ideasCall])

/-- User-facing message chosen by the `catch` block of
`handleGeneratePrototype` (BAD_RESPONSE falls into the default arm there). -/
def prototypeErrorMessage (err : ApiServiceError) : String :=
  match err.type with
  | ApiErrorType.INVALID_KEY => "Your API Key is invalid or missing permissions. Please select a valid API key to continue."
  | ApiErrorType.RATE_LIMIT => "You've exceeded the API rate limit. Please wait a moment and try again."
  | ApiErrorType.NETWORK => "A network error occurred. Please check your connection and try again."
  | ApiErrorType.RESPONSE_BLOCKED => "The AI's response for the prototype was blocked due to content safety policies. This can sometimes happen with code generation. Please try again."
  | _ => "An unknown error occurred while generating the prototype. Please try again."

/-- Embedding of `handleGeneratePrototype` (root component): runs the
prototype call from the loading state; on failure it returns to
IDEA_COMPLETE, except that INVALID_KEY clears the credential flag and
returns to ANALYSIS_INPUT. -/
def handleGeneratePrototype (s : AppUiState)
    (outcome : Except ApiServiceError PrototypeResult) :
    AppUiState × List ApiCall :=
  let s0 := { s with appState := AppState.PROTOTYPE_LOADING, error := none }
  match outcome with
  | Except.ok result =>
    ({ s0 with prototypeResult := some result, appState := AppState.PROTOTYPE_COMPLETE },
     [ApiCall.prototypeCall])
  | Except.error err =>
    let resetApiKey := err.type = ApiErrorType.INVALID_KEY
    if resetApiKey then
      ({ s0 with error := some (prototypeErrorMessage err), isApiKeySelected := false,
                 appState := AppState.ANALYSIS_INPUT }, [ApiCall.prototypeCall])
    else
      ({ s0 with error := some (prototypeErrorMessage err), appState := AppState.IDEA_COMPLETE },
       [ApiCall.prototypeCall])

/-- Tests whether a thrown value is already a classified `ApiServiceError`. -/
def isApiServiceErrorValue : JsThrown → Bool
  | JsThrown.apiServiceError _ => true
  | _ => false

/-- C2: for every value thrown by the transport, `handleApiError` returns the
value itself unchanged if it is already a classified `ApiServiceError`;
otherwise INVALID_KEY if its message contains `API key not valid` or
`Requested entity was not found`; otherwise RATE_LIMIT if the message
contains `Rate limit exceeded`; otherwise NETWORK if the value is a
`TypeError` whose message contains `fetch` or `network`; otherwise UNKNOWN. -/
theorem c2_classifier (v : JsThrown) :
    (∀ e, v = JsThrown.apiServiceError e → handleApiError v = e)
    ∧ (isApiServiceErrorValue v = false →
      ((jsIncludes (jsMessage v) "API key not valid" || jsIncludes (jsMessage v) "Requested entity was not found") = true →
        handleApiError v = ⟨ApiErrorType.INVALID_KEY, "API Key is invalid or not found."⟩)
      ∧ ((jsIncludes (jsMessage v) "API key not valid" || jsIncludes (jsMessage v) "Requested entity was not found") = false →
        (jsIncludes (jsMessage v) "Rate limit exceeded" = true →
          handleApiError v = ⟨ApiErrorType.RATE_LIMIT, "You have exceeded the API rate limit."⟩)
        ∧ (jsIncludes (jsMessage v) "Rate limit exceeded" = false →
          ((isTypeErrorValue v && (jsIncludes (jsMessage v) "fetch" || jsIncludes (jsMessage v) "network")) = true →
            handleApiError v = ⟨ApiErrorType.NETWORK, "A network error occurred. Please check your connection."⟩)
          ∧ ((isTypeErrorValue v && (jsIncludes (jsMessage v) "fetch" || jsIncludes (jsMessage v) "network")) = false →
            handleApiError v = ⟨ApiErrorType.UNKNOWN, "An unknown API error occurred."⟩)))) := by
  refine ⟨?_, ?_⟩
  · intro e he
    subst he
    rfl
  · intro hA
    cases v with
    | apiServiceError e => simp [isApiServiceErrorValue] at hA
    | typeError m =>
      refine ⟨?_, ?_⟩
      · intro h1
        simp only [handleApiError, jsMessage] at h1 ⊢
        rw [if_pos h1]
      · intro h1
        refine ⟨?_, ?_⟩
        · intro h2
          simp only [handleApiError, jsMessage] at h1 h2 ⊢
          rw [if_neg (by simp [h1]), if_pos h2]
        · intro h2
          refine ⟨?_, ?_⟩
          · intro h3
            simp only [handleApiError, jsMessage] at h1 h2 h3 ⊢
            rw [if_neg (by simp [h1]), if_neg (by simp [h2]), if_pos h3]
          · intro h3
            simp only [handleApiError, jsMessage] at h1 h2 h3 ⊢
            rw [if_neg (by simp [h1]), if_neg (by simp [h2]), if_neg (by simp [h3])]
    | otherError m =>
      refine ⟨?_, ?_⟩
      · intro h1
        simp only [handleApiError, jsMessage] at h1 ⊢
        rw [if_pos h1]
      · intro h1
        refine ⟨?_, ?_⟩
        · intro h2
          simp only [handleApiError, jsMessage] at h1 h2 ⊢
          rw [if_neg (by simp [h1]), if_pos h2]
        · intro h2
          refine ⟨?_, ?_⟩
          · intro h3
            simp only [handleApiError, jsMessage] at h1 h2 h3 ⊢
            rw [if_neg (by simp [h1]), if_neg (by simp [h2]), if_pos h3]
          · intro h3
            simp only [handleApiError, jsMessage] at h1 h2 h3 ⊢
            rw [if_neg (by simp [h1]), if_neg (by simp [h2]), if_neg (by simp [h3])]
    | nonError m =>
      refine ⟨?_, ?_⟩
      · intro h1
        simp only [handleApiError, jsMessage] at h1 ⊢
        rw [if_pos h1]
      · intro h1
        refine ⟨?_, ?_⟩
        · intro h2
          simp only [handleApiError, jsMessage] at h1 h2 ⊢
          rw [if_neg (by simp [h1]), if_pos h2]
        · intro h2
          refine ⟨?_, ?_⟩
          · intro h3
            simp only [handleApiError, jsMessage] at h1 h2 h3 ⊢
            rw [if_neg (by simp [h1]), if_neg (by simp [h2]), if_pos h3]
          · intro h3
            simp only [handleApiError, jsMessage] at h1 h2 h3 ⊢
            rw [if_neg (by simp [h1]), if_neg (by simp [h2]), if_neg (by simp [h3])]

/-- Witness for C2: a `TypeError` mentioning `fetch` classifies as NETWORK. -/
theorem c2_witness :
    handleApiError (JsThrown.typeError "Failed to fetch") =
      ⟨ApiErrorType.NETWORK, "A network error occurred. Please check your connection."⟩ :=
  ((((c2_classifier (JsThrown.typeError "Failed to fetch")).2 (by decide)).2 (by decide)).2 (by decide)).1 (by decide)

/-- C4: for all three operations, an absent credential fails immediately with
INVALID_KEY and the transport is never invoked, whatever the transport
would have answered and whatever the parse oracle is. -/
theorem c4_missing_key (t1 t2 t3 : Except JsThrown GenResponse) (p1 p2 : String → Option Json) :
    ((generateMarketAnalysis none t1 p1).result
        = Except.error ⟨ApiErrorType.INVALID_KEY, "API Key is not configured."⟩
      ∧ (generateMarketAnalysis none t1 p1).transportCalled = false)
    ∧ ((generateGameLevels none t2 p2).result
        = Except.error ⟨ApiErrorType.INVALID_KEY, "API Key is not configured."⟩
      ∧ (generateGameLevels none t2 p2).transportCalled = false)
    ∧ ((generatePrototype none t3).result
        = Except.error ⟨ApiErrorType.INVALID_KEY, "API Key is not configured."⟩
      ∧ (generatePrototype none t3).transportCalled = false) :=
  ⟨⟨rfl, rfl⟩, ⟨rfl, rfl⟩, ⟨rfl, rfl⟩⟩

/-- Witness for C4 at a concrete would-be transport answer. -/
theorem c4_witness :
    (generateMarketAnalysis none (Except.ok ⟨some "STOP", some "42"⟩) (fun _ => some (Json.num 42))).transportCalled = false :=
  (c4_missing_key (Except.ok ⟨some "STOP", some "42"⟩) (Except.ok ⟨some "STOP", some "42"⟩)
    (Except.ok ⟨some "STOP", some "42"⟩) (fun _ => some (Json.num 42)) (fun _ => some (Json.num 42))).1.2

/-- C9: invoking the genre-analysis action with a blank or whitespace-only
genre leaves the machine in ANALYSIS_INPUT, surfaces the local validation
error, and issues no API request. -/
theorem c9_blank_genre (s : AppUiState) (aOut iOut : Except ApiServiceError Json)
    (hblank : (jsTrim s.genre).data.isEmpty = true) :
    (handleAnalyzeGenre s aOut iOut).1.appState = AppState.ANALYSIS_INPUT
    ∧ (handleAnalyzeGenre s aOut iOut).1.error = some "Please enter a game genre."
    ∧ (handleAnalyzeGenre s aOut iOut).2 = [] := by
  refine ⟨?_, ?_, ?_⟩ <;> simp [handleAnalyzeGenre, hblank]

/-- Witness for C9 with a whitespace-only genre. -/
theorem c9_witness :
    (handleAnalyzeGenre ⟨true, AppState.ANALYSIS_INPUT, "   ", none, none, none, none⟩
        (Except.ok Json.null) (Except.ok Json.null)).1.appState = AppState.ANALYSIS_INPUT
    ∧ (handleAnalyzeGenre ⟨true, AppState.ANALYSIS_INPUT, "   ", none, none, none, none⟩
        (Except.ok Json.null) (Except.ok Json.null)).1.error = some "Please enter a game genre."
    ∧ (handleAnalyzeGenre ⟨true, AppState.ANALYSIS_INPUT, "   ", none, none, none, none⟩
        (Except.ok Json.null) (Except.ok Json.null)).2 = [] :=
  c9_blank_genre ⟨true, AppState.ANALYSIS_INPUT, "   ", none, none, none, none⟩
    (Except.ok Json.null) (Except.ok Json.null) (by decide)

/-- C5: every pipeline failure: during the analysis or idea step the machine
returns to ANALYSIS_INPUT with an error message; during prototype
generation it returns to IDEA_COMPLETE with the fetched levels unchanged,
unless the failure kind is INVALID_KEY, which sends it to ANALYSIS_INPUT;
INVALID_KEY always clears the credential-selected flag and any other kind
leaves it unchanged. -/
theorem c5_failure_rollback (s : AppUiState)
    (aOut iOut : Except ApiServiceError Json)
    (pOut : Except ApiServiceError PrototypeResult) (e : ApiServiceError)
    (hgenre : (jsTrim s.genre).data.isEmpty = false) :
    (aOut = Except.error e →
      (handleAnalyzeGenre s aOut iOut).1.appState = AppState.ANALYSIS_INPUT
      ∧ ((handleAnalyzeGenre s aOut iOut).1.error).isSome = true
      ∧ (handleAnalyzeGenre s aOut iOut).1.isApiKeySelected
          = (if e.type = ApiErrorType.INVALID_KEY then false else s.isApiKeySelected))
    ∧ (∀ a, aOut = Except.ok a → iOut = Except.error e →
      (handleAnalyzeGenre s aOut iOut).1.appState = AppState.ANALYSIS_INPUT
      ∧ ((handleAnalyzeGenre s aOut iOut).1.error).isSome = true
      ∧ (handleAnalyzeGenre s aOut iOut).1.isApiKeySelected
          = (if e.type = ApiErrorType.INVALID_KEY then false else s.isApiKeySelected))
    ∧ (pOut = Except.error e →
      ((handleGeneratePrototype s pOut).1.error).isSome = true
      ∧ (handleGeneratePrototype s pOut).1.gameIdeas = s.gameIdeas
      ∧ (if e.type = ApiErrorType.INVALID_KEY then
           (handleGeneratePrototype s pOut).1.appState = AppState.ANALYSIS_INPUT
           ∧ (handleGeneratePrototype s pOut).1.isApiKeySelected = false
         else
           (handleGeneratePrototype s pOut).1.appState = AppState.IDEA_COMPLETE
           ∧ (handleGeneratePrototype s pOut).1.isApiKeySelected = s.isApiKeySelected)) := by
  refine ⟨?_, ?_, ?_⟩
  · intro ha
    subst ha
    refine ⟨?_, ?_, ?_⟩ <;> simp [handleAnalyzeGenre, analyzeGenreCatch, hgenre]
  · intro a ha hi
    subst ha
    subst hi
    refine ⟨?_, ?_, ?_⟩ <;> simp [handleAnalyzeGenre, analyzeGenreCatch, hgenre]
  · intro hp
    subst hp
    by_cases hk : e.type = ApiErrorType.INVALID_KEY <;>
      simp [handleGeneratePrototype, hk]

/-- Witness for C5: a RATE_LIMIT failure at the prototype step keeps the
credential flag and returns to IDEA_COMPLETE with the levels untouched. -/
theorem c5_witness :
    ((handleGeneratePrototype
        ⟨true, AppState.PROTOTYPE_LOADING, "roguelike", some (Json.obj []), some (Json.arr [Json.null, Json.null]), none, none⟩
        (Except.error ⟨ApiErrorType.RATE_LIMIT, "limit"⟩)).1.error).isSome = true
    ∧ (handleGeneratePrototype
        ⟨true, AppState.PROTOTYPE_LOADING, "roguelike", some (Json.obj []), some (Json.arr [Json.null, Json.null]), none, none⟩
        (Except.error ⟨ApiErrorType.RATE_LIMIT, "limit"⟩)).1.gameIdeas
        = (⟨true, AppState.PROTOTYPE_LOADING, "roguelike", some (Json.obj []), some (Json.arr [Json.null, Json.null]), none, none⟩ : AppUiState).gameIdeas
    ∧ (if (⟨ApiErrorType.RATE_LIMIT, "limit"⟩ : ApiServiceError).type = ApiErrorType.INVALID_KEY then
         (handleGeneratePrototype
            ⟨true, AppState.PROTOTYPE_LOADING, "roguelike", some (Json.obj []), some (Json.arr [Json.null, Json.null]), none, none⟩
            (Except.error ⟨ApiErrorType.RATE_LIMIT, "limit"⟩)).1.appState = AppState.ANALYSIS_INPUT
         ∧ (handleGeneratePrototype
            ⟨true, AppState.PROTOTYPE_LOADING, "roguelike", some (Json.obj []), some (Json.arr [Json.null, Json.null]), none, none⟩
            (Except.error ⟨ApiErrorType.RATE_LIMIT, "limit"⟩)).1.isApiKeySelected = false
       else
         (handleGeneratePrototype
            ⟨true, AppState.PROTOTYPE_LOADING, "roguelike", some (Json.obj []), some (Json.arr [Json.null, Json.null]), none, none⟩
            (Except.error ⟨ApiErrorType.RATE_LIMIT, "limit"⟩)).1.appState = AppState.IDEA_COMPLETE
         ∧ (handleGeneratePrototype
            ⟨true, AppState.PROTOTYPE_LOADING, "roguelike", some (Json.obj []), some (Json.arr [Json.null, Json.null]), none, none⟩
            (Except.error ⟨ApiErrorType.RATE_LIMIT, "limit"⟩)).1.isApiKeySelected
            = (⟨true, AppState.PROTOTYPE_LOADING, "roguelike", some (Json.obj []), some (Json.arr [Json.null, Json.null]), none, none⟩ : AppUiState).isApiKeySelected) :=
  (c5_failure_rollback
    ⟨true, AppState.PROTOTYPE_LOADING, "roguelike", some (Json.obj []), some (Json.arr [Json.null, Json.null]), none, none⟩
    (Except.ok Json.null) (Except.ok Json.null)
    (Except.error ⟨ApiErrorType.RATE_LIMIT, "limit"⟩) ⟨ApiErrorType.RATE_LIMIT, "limit"⟩
    (by decide)).2.2 rfl

/-- C1: for a credential-bearing call of `generatePrototype` whose trimmed
response text is non-empty: if that text starts with the literal marker
`PROTOTYPE_UNFEASIBLE:` the result is the text variant carrying the text
with the marker removed and surrounding whitespace stripped; any other text
yields the html variant wrapping the trimmed content with the fixed style
preamble verbatim, and no error is raised. -/
theorem c1_prototype_classification (apiKey : Option String) (r : GenResponse)
    (hkey : keyTruthy apiKey = true)
    (hne : (jsTrim (r.text.getD "")).data.isEmpty = false) :
    (jsStartsWith (jsTrim (r.text.getD "")) "PROTOTYPE_UNFEASIBLE:" = true →
      (generatePrototype apiKey (Except.ok r)).result
        = Except.ok ⟨PrototypeVariant.text,
            jsTrim (jsReplaceFirst (jsTrim (r.text.getD "")) "PROTOTYPE_UNFEASIBLE:" "")⟩)
    ∧ (jsStartsWith (jsTrim (r.text.getD "")) "PROTOTYPE_UNFEASIBLE:" = false →
      (generatePrototype apiKey (Except.ok r)).result
        = Except.ok ⟨PrototypeVariant.html, prototypeStyleWrap (jsTrim (r.text.getD ""))⟩) := by
  constructor <;> intro hs <;> simp [generatePrototype, hkey, hne, hs]

/-- Witness for C1: a concrete infeasibility answer is classified as the text
variant with the marker stripped and the remainder trimmed. -/
theorem c1_witness :
    (generatePrototype (some "key")
        (Except.ok ⟨none, some "  PROTOTYPE_UNFEASIBLE: goal unreachable  "⟩)).result
      = Except.ok ⟨PrototypeVariant.text, "goal unreachable"⟩ :=
  (c1_prototype_classification (some "key")
    ⟨none, some "  PROTOTYPE_UNFEASIBLE: goal unreachable  "⟩ (by decide) (by decide)).1 (by decide)

/-- Parse oracle modelling `JSON.parse` on an input it rejects (throws). -/
def parseFailAll : String → Option Json := fun _ => none

/-- Parse oracle modelling `JSON.parse` on the literal `\x7b\x7d`. -/
def parseEmptyObject : String → Option Json := fun _ => some (Json.obj [])

/-- Parse oracle modelling `JSON.parse` on a three-element JSON array. -/
def parseNullTriple : String → Option Json := fun _ => some (Json.arr [Json.null, Json.null, Json.null])

/-- Counterexample for C3 as stated: the normal finish reason reported by the
API is the uppercase `STOP`, which is a value other than the claim's
lowercase `stop`, yet both schema-constrained operations succeed on it
instead of failing with RESPONSE_BLOCKED. -/
theorem c3_counterexample :
    (generateMarketAnalysis (some "key")
        (Except.ok ⟨some "STOP", some "valid"⟩) parseEmptyObject).result
      = Except.ok (Json.obj [])
    ∧ (generateGameLevels (some "key")
        (Except.ok ⟨some "STOP", some "valid"⟩) parseEmptyObject).result
      = Except.ok (Json.obj []) :=
  ⟨rfl, rfl⟩

/-- C3 (amended): for both schema-constrained operations, a response whose
finish reason is present as a non-empty string different from the
case-sensitive value `STOP` fails with a RESPONSE_BLOCKED error whose
message carries that reason. -/
theorem c3_blocked_reason (apiKey : Option String) (r : GenResponse)
    (p1 p2 : String → Option Json) (reason : String)
    (hkey : keyTruthy apiKey = true)
    (hfr : r.finishReason = some reason)
    (hne : reason.data.isEmpty = false)
    (hstop : reason ≠ "STOP") :
    (generateMarketAnalysis apiKey (Except.ok r) p1).result
      = Except.error ⟨ApiErrorType.RESPONSE_BLOCKED, "Response was blocked due to: " ++ reason⟩
    ∧ (generateGameLevels apiKey (Except.ok r) p2).result
      = Except.error ⟨ApiErrorType.RESPONSE_BLOCKED, "Response was blocked due to: " ++ reason⟩ := by
  have hb : isBlockedResponse (some reason) = true := by
    simp [isBlockedResponse, hne, bne_iff_ne, hstop]
  constructor <;> simp [generateMarketAnalysis, generateGameLevels, hkey, hfr, hb]

/-- Witness for C3 at the concrete reason `SAFETY`. -/
theorem c3_witness :
    (generateMarketAnalysis (some "key") (Except.ok ⟨some "SAFETY", some "valid"⟩) parseEmptyObject).result
      = Except.error ⟨ApiErrorType.RESPONSE_BLOCKED, "Response was blocked due to: SAFETY"⟩
    ∧ (generateGameLevels (some "key") (Except.ok ⟨some "SAFETY", some "valid"⟩) parseEmptyObject).result
      = Except.error ⟨ApiErrorType.RESPONSE_BLOCKED, "Response was blocked due to: SAFETY"⟩ :=
  c3_blocked_reason (some "key") ⟨some "SAFETY", some "valid"⟩ parseEmptyObject parseEmptyObject
    "SAFETY" (by decide) rfl (by decide) (by decide)

/-- Counterexample for C7 as stated: a response that is both blocked and
empty fails with RESPONSE_BLOCKED, not BAD_RESPONSE, in both
schema-constrained operations (the blocked check runs first). -/
theorem c7_counterexample :
    (generateMarketAnalysis (some "key") (Except.ok ⟨some "SAFETY", none⟩) parseFailAll).result
      = Except.error ⟨ApiErrorType.RESPONSE_BLOCKED, "Response was blocked due to: SAFETY"⟩
    ∧ (generateGameLevels (some "key") (Except.ok ⟨some "SAFETY", none⟩) parseFailAll).result
      = Except.error ⟨ApiErrorType.RESPONSE_BLOCKED, "Response was blocked due to: SAFETY"⟩ :=
  ⟨rfl, rfl⟩

/-- C7 (amended): an empty or missing response text fails with BAD_RESPONSE
and JSON parsing is never attempted: unconditionally for
`generatePrototype`, which has no finish-reason guard, and for the two
schema-constrained operations whenever the response passes their
finish-reason guard. -/
theorem c7_empty_text (apiKey : Option String) (r : GenResponse)
    (p1 p2 : String → Option Json)
    (hkey : keyTruthy apiKey = true)
    (htext : r.text = none ∨ r.text = some "") :
    (isBlockedResponse r.finishReason = false →
      ((generateMarketAnalysis apiKey (Except.ok r) p1).result
          = Except.error ⟨ApiErrorType.BAD_RESPONSE, "Received an empty response from the AI."⟩
        ∧ (generateMarketAnalysis apiKey (Except.ok r) p1).parseAttempted = false)
      ∧ ((generateGameLevels apiKey (Except.ok r) p2).result
          = Except.error ⟨ApiErrorType.BAD_RESPONSE, "Received an empty response from the AI."⟩
        ∧ (generateGameLevels apiKey (Except.ok r) p2).parseAttempted = false))
    ∧ ((generatePrototype apiKey (Except.ok r)).result
        = Except.error ⟨ApiErrorType.BAD_RESPONSE, "Received an empty prototype response from the AI."⟩
      ∧ (generatePrototype apiKey (Except.ok r)).parseAttempted = false) := by
  constructor
  · intro hnb
    rcases htext with h | h <;>
      refine ⟨⟨?_, ?_⟩, ⟨?_, ?_⟩⟩ <;>
        simp [generateMarketAnalysis, generateGameLevels, optStrTruthy, hkey, hnb, h]
  · rcases htext with h | h <;>
      refine ⟨?_, ?_⟩ <;>
        simp [generatePrototype, jsTrim, dropWhileWS, hkey, h]

/-- Witness for C7: missing text on an unblocked response for the two
schema-constrained operations, and on a blocked response for
`generatePrototype`, whose empty-text failure needs no finish-reason
condition. -/
theorem c7_witness :
    ((generateMarketAnalysis (some "key") (Except.ok ⟨some "STOP", none⟩) parseFailAll).result
        = Except.error ⟨ApiErrorType.BAD_RESPONSE, "Received an empty response from the AI."⟩
      ∧ (generateMarketAnalysis (some "key") (Except.ok ⟨some "STOP", none⟩) parseFailAll).parseAttempted = false)
    ∧ ((generateGameLevels (some "key") (Except.ok ⟨some "STOP", none⟩) parseFailAll).result
        = Except.error ⟨ApiErrorType.BAD_RESPONSE, "Received an empty response from the AI."⟩
      ∧ (generateGameLevels (some "key") (Except.ok ⟨some "STOP", none⟩) parseFailAll).parseAttempted = false)
    ∧ ((generatePrototype (some "key") (Except.ok ⟨some "SAFETY", none⟩)).result
        = Except.error ⟨ApiErrorType.BAD_RESPONSE, "Received an empty prototype response from the AI."⟩
      ∧ (generatePrototype (some "key") (Except.ok ⟨some "SAFETY", none⟩)).parseAttempted = false) :=
  ⟨((c7_empty_text (some "key") ⟨some "STOP", none⟩ parseFailAll parseFailAll
      (by decide) (Or.inl rfl)).1 (by decide)).1,
   ((c7_empty_text (some "key") ⟨some "STOP", none⟩ parseFailAll parseFailAll
      (by decide) (Or.inl rfl)).1 (by decide)).2,
   (c7_empty_text (some "key") ⟨some "SAFETY", none⟩ parseFailAll parseFailAll
      (by decide) (Or.inl rfl)).2⟩

/-- Counterexample for C8 as stated: a blocked response whose non-empty text
is unparseable fails with RESPONSE_BLOCKED, not BAD_RESPONSE (the blocked
check runs before any parse). -/
theorem c8_counterexample :
    (generateMarketAnalysis (some "key") (Except.ok ⟨some "SAFETY", some "not json"⟩) parseFailAll).result
      = Except.error ⟨ApiErrorType.RESPONSE_BLOCKED, "Response was blocked due to: SAFETY"⟩
    ∧ (generateGameLevels (some "key") (Except.ok ⟨some "SAFETY", some "not json"⟩) parseFailAll).result
      = Except.error ⟨ApiErrorType.RESPONSE_BLOCKED, "Response was blocked due to: SAFETY"⟩ :=
  ⟨rfl, rfl⟩

/-- C8 (amended): for both schema-constrained operations, a non-empty
response text that passes the finish-reason guard and is not parseable as
JSON fails with the malformed-data BAD_RESPONSE error; the parse failure is
caught, never escaping as an unhandled exception (the embedding is a total
function into `Except ApiServiceError`). -/
theorem c8_malformed_json (apiKey : Option String) (r : GenResponse)
    (p1 p2 : String → Option Json)
    (hkey : keyTruthy apiKey = true)
    (hnb : isBlockedResponse r.finishReason = false)
    (htext : optStrTruthy r.text = true)
    (hp1 : p1 (jsTrim (r.text.getD "")) = none)
    (hp2 : p2 (jsTrim (r.text.getD "")) = none) :
    ((generateMarketAnalysis apiKey (Except.ok r) p1).result
        = Except.error ⟨ApiErrorType.BAD_RESPONSE, "Received malformed data for market analysis."⟩
      ∧ (generateMarketAnalysis apiKey (Except.ok r) p1).parseAttempted = true)
    ∧ ((generateGameLevels apiKey (Except.ok r) p2).result
        = Except.error ⟨ApiErrorType.BAD_RESPONSE, "Received malformed data for game ideas."⟩
      ∧ (generateGameLevels apiKey (Except.ok r) p2).parseAttempted = true) := by
  refine ⟨⟨?_, ?_⟩, ⟨?_, ?_⟩⟩ <;>
    simp [generateMarketAnalysis, generateGameLevels, hkey, hnb, htext, hp1, hp2]

/-- Witness for C8 on a concrete unparseable text. -/
theorem c8_witness :
    ((generateMarketAnalysis (some "key") (Except.ok ⟨none, some "oops"⟩) parseFailAll).result
        = Except.error ⟨ApiErrorType.BAD_RESPONSE, "Received malformed data for market analysis."⟩
      ∧ (generateMarketAnalysis (some "key") (Except.ok ⟨none, some "oops"⟩) parseFailAll).parseAttempted = true)
    ∧ ((generateGameLevels (some "key") (Except.ok ⟨none, some "oops"⟩) parseFailAll).result
        = Except.error ⟨ApiErrorType.BAD_RESPONSE, "Received malformed data for game ideas."⟩
      ∧ (generateGameLevels (some "key") (Except.ok ⟨none, some "oops"⟩) parseFailAll).parseAttempted = true) :=
  c8_malformed_json (some "key") ⟨none, some "oops"⟩ parseFailAll parseFailAll
    (by decide) rfl (by decide) rfl rfl

/-- Counterexample for C10 as stated: a response carrying the finish reason
`STOP` (a value other than the claim's lowercase `stop`) with missing text
fails with BAD_RESPONSE, not RESPONSE_BLOCKED. -/
theorem c10_counterexample :
    (generateMarketAnalysis (some "key") (Except.ok ⟨some "STOP", none⟩) parseEmptyObject).result
      = Except.error ⟨ApiErrorType.BAD_RESPONSE, "Received an empty response from the AI."⟩
    ∧ (generateGameLevels (some "key") (Except.ok ⟨some "STOP", none⟩) parseEmptyObject).result
      = Except.error ⟨ApiErrorType.BAD_RESPONSE, "Received an empty response from the AI."⟩ :=
  ⟨rfl, rfl⟩

/-- C10 (amended): for both schema-constrained operations, when the response
carries a finish reason that is a non-empty string other than the
case-sensitive `STOP` and its text is empty or missing, the blocked check
takes precedence: the operation fails with RESPONSE_BLOCKED, not
BAD_RESPONSE. -/
theorem c10_blocked_precedence (apiKey : Option String) (r : GenResponse)
    (p1 p2 : String → Option Json) (reason : String)
    (hkey : keyTruthy apiKey = true)
    (hfr : r.finishReason = some reason)
    (hne : reason.data.isEmpty = false)
    (hstop : reason ≠ "STOP")
    (htext : optStrTruthy r.text = false) :
    (generateMarketAnalysis apiKey (Except.ok r) p1).result
      = Except.error ⟨ApiErrorType.RESPONSE_BLOCKED, "Response was blocked due to: " ++ reason⟩
    ∧ (generateGameLevels apiKey (Except.ok r) p2).result
      = Except.error ⟨ApiErrorType.RESPONSE_BLOCKED, "Response was blocked due to: " ++ reason⟩ := by
  have hb : isBlockedResponse (some reason) = true := by
    simp [isBlockedResponse, hne, bne_iff_ne, hstop]
  constructor <;> simp [generateMarketAnalysis, generateGameLevels, hkey, hfr, hb]

/-- Witness for C10: a blocked reason together with missing text. -/
theorem c10_witness :
    (generateMarketAnalysis (some "key") (Except.ok ⟨some "MAX_TOKENS", none⟩) parseFailAll).result
      = Except.error ⟨ApiErrorType.RESPONSE_BLOCKED, "Response was blocked due to: MAX_TOKENS"⟩
    ∧ (generateGameLevels (some "key") (Except.ok ⟨some "MAX_TOKENS", none⟩) parseFailAll).result
      = Except.error ⟨ApiErrorType.RESPONSE_BLOCKED, "Response was blocked due to: MAX_TOKENS"⟩ :=
  c10_blocked_precedence (some "key") ⟨some "MAX_TOKENS", none⟩ parseFailAll parseFailAll
    "MAX_TOKENS" (by decide) rfl (by decide) (by decide) rfl

/-- Counterexample for C6 as stated: `generateGameLevels` performs no length
check, so a response parsing to a three-element JSON array is returned
successfully, and the state machine then stores those three levels. -/
theorem c6_counterexample :
    (generateGameLevels (some "key")
        (Except.ok ⟨some "STOP", some "[null, null, null]"⟩) parseNullTriple).result
      = Except.ok (Json.arr [Json.null, Json.null, Json.null])
    ∧ [Json.null, Json.null, Json.null].length ≠ 2
    ∧ (handleAnalyzeGenre
        ⟨true, AppState.ANALYSIS_INPUT, "platformer", none, none, none, none⟩
        (Except.ok (Json.obj [])) (Except.ok (Json.arr [Json.null, Json.null, Json.null]))).1.gameIdeas
      = some (Json.arr [Json.null, Json.null, Json.null]) :=
  ⟨rfl, by decide, rfl⟩

/-- C6 (amended): a successful `generateGameLevels` call returns exactly the
JSON value the response parsed to, with no validation of its length or
shape (the two-element count is a prompt-level request only), and on
success the application stores that returned value unchanged as its levels
state. -/
theorem c6_levels_passthrough (apiKey : Option String) (r : GenResponse)
    (p : String → Option Json) (v : Json) (s : AppUiState) (a levels : Json)
    (hkey : keyTruthy apiKey = true)
    (hnb : isBlockedResponse r.finishReason = false)
    (htext : optStrTruthy r.text = true)
    (hp : p (jsTrim (r.text.getD "")) = some v)
    (hgenre : (jsTrim s.genre).data.isEmpty = false) :
    (generateGameLevels apiKey (Except.ok r) p).result = Except.ok v
    ∧ (handleAnalyzeGenre s (Except.ok a) (Except.ok levels)).1.gameIdeas = some levels
    ∧ (handleAnalyzeGenre s (Except.ok a) (Except.ok levels)).1.appState = AppState.IDEA_COMPLETE := by
  refine ⟨?_, ?_, ?_⟩
  · simp [generateGameLevels, hkey, hnb, htext, hp]
  · simp [handleAnalyzeGenre, hgenre]
  · simp [handleAnalyzeGenre, hgenre]

/-- Witness for C6 on a two-element response, the intended shape. -/
theorem c6_witness :
    (generateGameLevels (some "key")
        (Except.ok ⟨some "STOP", some "[null, null]"⟩) (fun _ => some (Json.arr [Json.null, Json.null]))).result
      = Except.ok (Json.arr [Json.null, Json.null])
    ∧ (handleAnalyzeGenre
        ⟨true, AppState.ANALYSIS_INPUT, "platformer", none, none, none, none⟩
        (Except.ok (Json.obj [])) (Except.ok (Json.arr [Json.null, Json.null]))).1.gameIdeas
      = some (Json.arr [Json.null, Json.null])
    ∧ (handleAnalyzeGenre
        ⟨true, AppState.ANALYSIS_INPUT, "platformer", none, none, none, none⟩
        (Except.ok (Json.obj [])) (Except.ok (Json.arr [Json.null, Json.null]))).1.appState
      = AppState.IDEA_COMPLETE :=
  c6_levels_passthrough (some "key") ⟨some "STOP", some "[null, null]"⟩
    (fun _ => some (Json.arr [Json.null, Json.null])) (Json.arr [Json.null, Json.null])
    ⟨true, AppState.ANALYSIS_INPUT, "platformer", none, none, none, none⟩
    (Json.obj []) (Json.arr [Json.null, Json.null])
    (by decide) (by decide) (by decide) rfl (by decide)
